import Mathlib

/-!
Verification of the stagehand-voicebrowser voice-command dispatch loop.

This file shallowly embeds the core of the repository:
  * `transcribeWithCartesia` / `transcribeAudio` — the two batch speech-to-text
    providers (src/index.ts lines 29-54, src/unnamed/part_000 lines 80-98);
  * `classifyCommand` and its response-content parsing (src/index.ts lines
    171-257), including a model of JavaScript `JSON.parse` and of the
    markdown-fence-stripping regular expression;
  * the stop-recording branch of `startNodeVoiceLoop` (src/index.ts lines
    336-364), modelled as `dispatchCycle`;
  * `handleVoiceCommand` (src/index.ts lines 145-165);
  * the action cache: `simpleCache`, `readCache`, `actWithCache`
    (src/index.ts lines 524-595).

Effectful TypeScript is modelled by explicit outcome parameters (what the
network / microphone returned) and by explicit result records carrying the
observable effects (which browser action ran, whether the temp file was
removed, how many observe calls happened).  Character-level string
operations are implemented on `List Char`; whitespace and lower-casing use
the ASCII fragment, which is the fragment exercised by the program.
-/

/-- ASCII whitespace recognised by the model ( space, tab, LF, CR ) —
the whitespace class shared by `String.prototype.trim`, the regex `\s`
uses, and `JSON.parse` on the inputs this program handles. -/
def isWsChar (c : Char) : Bool :=
  c == ' ' || c == '\t' || c == '\n' || c == '\r'

/-- Model of `String.prototype.trim` on character lists. -/
def trimChars (cs : List Char) : List Char :=
  ((cs.dropWhile isWsChar).reverse.dropWhile isWsChar).reverse

/-- Model of `String.prototype.trim`. -/
def trimS (s : String) : String :=
  String.mk (trimChars s.data)

/-- Model of `String.prototype.toLowerCase` (ASCII fragment). -/
def toLowerS (s : String) : String :=
  String.mk (s.data.map Char.toLower)

/-- Find the first occurrence of `pat` in a character list; returns the
characters before the match and the characters after it. -/
def findSub (pat : List Char) : List Char → Option (List Char × List Char)
  | [] => if pat.isPrefixOf ([] : List Char) then some ([], []) else none
  | c :: rest =>
      if pat.isPrefixOf (c :: rest) then some ([], (c :: rest).drop pat.length)
      else (findSub pat rest).map (fun pr => (c :: pr.1, pr.2))

/-- Model of JavaScript `String.prototype.includes`. -/
def includesSub (s pat : String) : Bool :=
  (findSub pat.data s.data).isSome

/-- The markdown code-fence delimiter. -/
def fenceChars : List Char := ("```").data

/-- Model of the fence-stripping step of `classifyCommand`
(src/index.ts line 219):
`contentStr.match(/` fence `(?:json)?\s*([\s\S]*?)\s*` fence `/i)`.
The regex finds the first fenced block: the capture is the text between the
first fence (with an immediate, case-insensitive `json` tag consumed) and
the next fence, with surrounding whitespace absorbed by `\s*`; the caller
trims afterwards, so the extra whitespace absorption is subsumed by
`trimS`.  When no complete fenced block exists the content is unchanged. -/
def stripFences (content : String) : String :=
  match findSub fenceChars content.data with
  | none => content
  | some (_, afterOpen) =>
    match findSub fenceChars afterOpen with
    | none => content
    | some (inner, _) =>
      if (inner.take 4).map Char.toLower = ("json").data then
        String.mk (inner.drop 4)
      else
        String.mk inner

/-- Fence-stripped and trimmed classifier content: the `trimmed` local of
`classifyCommand` (src/index.ts line 224). -/
def unwrapped (content : String) : String :=
  trimS (stripFences content)

/-- `trimmed === '1' || trimmed === '2' || trimmed === '3'`
(src/index.ts line 227). -/
def isEnumToken (s : String) : Bool :=
  s == "1" || s == "2" || s == "3"

/-- `trimmed.startsWith('\x7b') || trimmed.startsWith('[')`
(src/index.ts line 234). -/
def startsWithBraceOrBracket (s : String) : Bool :=
  match s.data with
  | [] => false
  | c :: _ => c == '\x7b' || c == '['

/-- Model of `trimmed.match(/[123]/)` (src/index.ts line 241): the first
character among 1, 2, 3, as a one-character string. -/
def firstDigit123 (s : String) : Option String :=
  match s.data.find? (fun c => c == '1' || c == '2' || c == '3') with
  | some c => some (String.mk [c])
  | none => none

/-! ## A model of JavaScript `JSON.parse`

`classifyCommand` feeds arbitrary response content to `JSON.parse`; the
model below implements the JSON grammar (RFC 8259) over `List Char` with a
fuel parameter for termination.  Parse failure models the thrown
`SyntaxError`. -/

/-- JSON values as produced by `JSON.parse`.  Numbers keep their raw
lexeme: the program only ever compares parsed fields against the string
literals `'1' | '2' | '3'` with `===`, which a number never equals. -/
inductive Json where
  | jnull
  | jbool (b : Bool)
  | jnum (raw : String)
  | jstr (s : String)
  | jarr (items : List Json)
  | jobj (members : List (String × Json))

/-- Skip JSON whitespace. -/
def skipWs (cs : List Char) : List Char :=
  cs.dropWhile isWsChar

/-- Hexadecimal digit value, for `\uXXXX` escapes. -/
def hexDigit? (c : Char) : Option Nat :=
  if '0' ≤ c ∧ c ≤ '9' then some (c.toNat - 48)
  else if 'a' ≤ c ∧ c ≤ 'f' then some (c.toNat - 87)
  else if 'A' ≤ c ∧ c ≤ 'F' then some (c.toNat - 55)
  else none

/-- Parse the body of a JSON string literal (after the opening quote):
returns the decoded characters and the rest of the input after the closing
quote.  Raw control characters are rejected, escape sequences are decoded,
exactly as `JSON.parse` does. -/
def parseStrChars : List Char → Option (List Char × List Char)
  | [] => none
  | c :: rest =>
    if c == '"' then some ([], rest)
    else if c == '\\' then
      match rest with
      | [] => none
      | e :: rest2 =>
        if e == '"' || e == '\\' || e == '/' then
          (parseStrChars rest2).map (fun pr => (e :: pr.1, pr.2))
        else if e == 'b' then
          (parseStrChars rest2).map (fun pr => ('\x08' :: pr.1, pr.2))
        else if e == 'f' then
          (parseStrChars rest2).map (fun pr => ('\x0C' :: pr.1, pr.2))
        else if e == 'n' then
          (parseStrChars rest2).map (fun pr => ('\n' :: pr.1, pr.2))
        else if e == 'r' then
          (parseStrChars rest2).map (fun pr => ('\x0D' :: pr.1, pr.2))
        else if e == 't' then
          (parseStrChars rest2).map (fun pr => ('\t' :: pr.1, pr.2))
        else if e == 'u' then
          match rest2 with
          | h1 :: h2 :: h3 :: h4 :: rest3 =>
            match hexDigit? h1, hexDigit? h2, hexDigit? h3, hexDigit? h4 with
            | some a, some b, some c2, some d =>
              (parseStrChars rest3).map
                (fun pr => (Char.ofNat (((a * 16 + b) * 16 + c2) * 16 + d) :: pr.1, pr.2))
            | _, _, _, _ => none
          | _ => none
        else none
    else if c.toNat < 32 then none
    else (parseStrChars rest).map (fun pr => (c :: pr.1, pr.2))

/-- Parse the integer part of a JSON number: `0` or a nonzero digit
followed by digits. -/
def parseIntPart : List Char → Option (List Char × List Char)
  | [] => none
  | c :: rest =>
    if c == '0' then some ([c], rest)
    else if c.isDigit then
      let pr := rest.span Char.isDigit
      some (c :: pr.1, pr.2)
    else none

/-- Parse an optional fraction part; `none` means malformed. -/
def parseFracPart : List Char → Option (List Char × List Char)
  | [] => some ([], [])
  | c :: rest =>
    if c == '.' then
      let pr := rest.span Char.isDigit
      if pr.1.isEmpty then none else some (c :: pr.1, pr.2)
    else some ([], c :: rest)

/-- Parse an optional exponent part; `none` means malformed. -/
def parseExpPart : List Char → Option (List Char × List Char)
  | [] => some ([], [])
  | c :: rest =>
    if c == 'e' || c == 'E' then
      match rest with
      | s :: r1 =>
        if s == '+' || s == '-' then
          let pr := r1.span Char.isDigit
          if pr.1.isEmpty then none else some (c :: s :: pr.1, pr.2)
        else
          let pr := rest.span Char.isDigit
          if pr.1.isEmpty then none else some (c :: pr.1, pr.2)
      | [] => none
    else some ([], c :: rest)

/-- Parse a JSON number lexeme. -/
def parseNum (cs : List Char) : Option (List Char × List Char) :=
  let sgn : List Char × List Char :=
    match cs with
    | c :: r => if c == '-' then ([c], r) else ([], cs)
    | [] => ([], [])
  match parseIntPart sgn.2 with
  | none => none
  | some (ip, r1) =>
    match parseFracPart r1 with
    | none => none
    | some (fp, r2) =>
      match parseExpPart r2 with
      | none => none
      | some (ep, r3) => some (sgn.1 ++ ip ++ fp ++ ep, r3)

/-- Consume a literal keyword tail. -/
def takeLit (lit cs : List Char) : Option (List Char) :=
  if lit.isPrefixOf cs then some (cs.drop lit.length) else none

mutual

/-- Parse one JSON value; `cs` starts at the value (no leading whitespace). -/
def parseVal : Nat → List Char → Option (Json × List Char)
  | 0, _ => none
  | _ + 1, [] => none
  | fuel + 1, c :: rest =>
    if c == '"' then
      (parseStrChars rest).map (fun pr => (Json.jstr (String.mk pr.1), pr.2))
    else if c == '\x7b' then parseObjBody fuel (skipWs rest)
    else if c == '[' then parseArrBody fuel (skipWs rest)
    else if c == 't' then
      (takeLit (("rue").data) rest).map (fun r => (Json.jbool true, r))
    else if c == 'f' then
      (takeLit (("alse").data) rest).map (fun r => (Json.jbool false, r))
    else if c == 'n' then
      (takeLit (("ull").data) rest).map (fun r => (Json.jnull, r))
    else
      (parseNum (c :: rest)).map (fun pr => (Json.jnum (String.mk pr.1), pr.2))

/-- Parse an array body after `[` and whitespace. -/
def parseArrBody : Nat → List Char → Option (Json × List Char)
  | 0, _ => none
  | fuel + 1, cs =>
    match cs with
    | ']' :: rest => some (Json.jarr [], rest)
    | _ => (parseArrItems fuel cs).map (fun pr => (Json.jarr pr.1, pr.2))

/-- Parse one or more comma-separated array items, then `]`. -/
def parseArrItems : Nat → List Char → Option (List Json × List Char)
  | 0, _ => none
  | fuel + 1, cs =>
    match parseVal fuel (skipWs cs) with
    | none => none
    | some (v, r1) =>
      match skipWs r1 with
      | ',' :: r2 => (parseArrItems fuel r2).map (fun pr => (v :: pr.1, pr.2))
      | ']' :: r2 => some ([v], r2)
      | _ => none

/-- Parse an object body after the opening brace and whitespace. -/
def parseObjBody : Nat → List Char → Option (Json × List Char)
  | 0, _ => none
  | fuel + 1, cs =>
    match cs with
    | '\x7d' :: rest => some (Json.jobj [], rest)
    | _ => (parseObjMembers fuel cs).map (fun pr => (Json.jobj pr.1, pr.2))

/-- Parse one or more `"key": value` members, then the closing brace. -/
def parseObjMembers : Nat → List Char → Option (List (String × Json) × List Char)
  | 0, _ => none
  | fuel + 1, cs =>
    match skipWs cs with
    | '"' :: r0 =>
      match parseStrChars r0 with
      | none => none
      | some (keyChars, r1) =>
        match skipWs r1 with
        | ':' :: r2 =>
          match parseVal fuel (skipWs r2) with
          | none => none
          | some (v, r3) =>
            match skipWs r3 with
            | ',' :: r4 =>
              (parseObjMembers fuel r4).map
                (fun pr => ((String.mk keyChars, v) :: pr.1, pr.2))
            | '\x7d' :: r4 => some ([(String.mk keyChars, v)], r4)
            | _ => none
        | _ => none
    | _ => none

end

/-- Model of `JSON.parse`: `none` models the thrown `SyntaxError`. -/
def jsonParse (s : String) : Option Json :=
  match parseVal (4 * (s.data.length + 1)) (skipWs s.data) with
  | some (v, rest) => if (skipWs rest).isEmpty then some v else none
  | none => none

/-- Property lookup on a parsed object: `JSON.parse` keeps the last of
duplicate keys, as does this fold. -/
def objLookupLast (kvs : List (String × Json)) (k : String) : Option Json :=
  kvs.foldl (fun acc p => if p.1 = k then some p.2 else acc) none

/-- `JSON.parse(trimmed)` followed by
`parsed && (parsed.code === '1' || parsed.code === '2' || parsed.code === '3')`
(src/index.ts lines 235-238): the label when the content parses as a JSON
object whose `code` member is one of the three enum tokens. -/
def jsonCodeField (s : String) : Option String :=
  match jsonParse s with
  | some (Json.jobj kvs) =>
    match objLookupLast kvs ("code") with
    | some (Json.jstr t) => if isEnumToken t then some t else none
    | _ => none
  | _ => none

/-! ## The intent classifier (`classifyCommand`, src/index.ts lines 171-257) -/

/-- Model of the response-content parsing inside `classifyCommand`
(src/index.ts lines 217-252): strip a markdown fence, trim, accept a bare
enum token, else try `JSON.parse` when the content begins with a brace or
bracket (a thrown parse error or a missing/invalid `code` member leaves the
default), else take the first embedded 1/2/3 digit; default `'1'`. -/
def parseClassification (content : String) : String :=
  let trimmed := unwrapped content
  if isEnumToken trimmed then trimmed
  else if startsWithBraceOrBracket trimmed then
    match jsonCodeField trimmed with
    | some t => t
    | none => "1"
  else
    match firstDigit123 trimmed with
    | some d => d
    | none => "1"

/-- What the classifier backend interaction produced for one call:
the `CEREBRAS_API_KEY` credential was absent; or `fetch` / `response.json()`
failed; or a response arrived, with
`data?.choices?.[0]?.message?.content || ''` modelled as the extracted
content string (absent content is the empty string). -/
inductive ClassifierOutcome where
  | noKey
  | netError
  | ok (content : String)
deriving DecidableEq

/-- Model of `classifyCommand` (src/index.ts lines 171-257): `'1'` when the
credential is missing (line 175) or the network call throws (line 255),
otherwise the parsed response content.  The function is total: no outcome
raises. -/
def classifyCommand : ClassifierOutcome → String
  | ClassifierOutcome.noKey => "1"
  | ClassifierOutcome.netError => "1"
  | ClassifierOutcome.ok content => parseClassification content

/-! ## Speech-to-text providers -/

/-- Outcome of one Cartesia batch transcription call
(src/index.ts lines 29-54): missing `CARTESIA_API_KEY`, a thrown API error,
or a response whose `text` field may be absent. -/
inductive SttOutcome where
  | noKey
  | apiError
  | ok (text : Option String)
deriving DecidableEq

/-- Model of `transcribeWithCartesia` (src/index.ts lines 29-54): empty
transcript on missing credential or API error, else `response.text || ''`.
Total — it never throws. -/
def transcribeWithCartesia : SttOutcome → String
  | SttOutcome.noKey => ""
  | SttOutcome.apiError => ""
  | SttOutcome.ok t => t.getD ""

/-- Outcome of one Whisper batch transcription call
(src/unnamed/part_000 lines 80-98). -/
inductive WhisperOutcome where
  | ok (text : String)
  | fail
deriving DecidableEq

/-- Model of `transcribeAudio` (src/unnamed/part_000 lines 80-98): the
`catch` block logs and then RE-THROWS (`throw error`), modelled as
`Except.error`. -/
def transcribeAudio : WhisperOutcome → Except Unit String
  | WhisperOutcome.ok t => Except.ok t
  | WhisperOutcome.fail => Except.error ()

/-! ## The push-to-talk dispatch cycle
(`startNodeVoiceLoop` stop-recording branch, src/index.ts lines 327-365) -/

/-- `['exit', 'quit', 'stop'].includes(transcript.toLowerCase())`
(src/index.ts line 352). -/
def isExitPhrase (transcript : String) : Bool :=
  toLowerS transcript == "exit" || toLowerS transcript == "quit" ||
    toLowerS transcript == "stop"

/-- The externally visible action one dispatch cycle takes: a fixed
half-viewport scroll (`window.scrollBy(0, ±window.innerHeight * 0.5)`),
a shutdown (`stagehand.close(); process.exit(0)`), or forwarding the
verbatim transcript to `executeAction` / `page.act`. -/
inductive DispatchAction where
  | scrollDown
  | scrollUp
  | shutdown
  | execute (transcript : String)
deriving DecidableEq

/-- Observable effects of one stop-recording dispatch cycle. -/
structure CycleResult where
  action : DispatchAction
  /-- whether `classifyCommand` was invoked during the cycle -/
  classifierInvoked : Bool
  /-- whether any action-cache write happened during the cycle -/
  cacheWritten : Bool
  /-- whether the cycle reached `fs.unlink(filePath, ...)` (line 362) -/
  tempFileRemoved : Bool
deriving DecidableEq

/-- Model of one stop-recording cycle of `startNodeVoiceLoop`
(src/index.ts lines 336-364), given the transcript returned by
`transcribeWithCartesia` and the classifier backend outcome.
`classifyCommand` is invoked unconditionally (line 340) before any branch;
the scroll branches test the classification only; the exit branch calls
`process.exit(0)` (line 356) BEFORE the `fs.unlink` cleanup at line 362, so
on that branch the temp file is not removed; the fallback branch forwards
the transcript to `executeAction`, which calls `page.act` directly and
never touches the action cache, so no cycle writes the cache. -/
def dispatchCycle (transcript : String) (cls : ClassifierOutcome) : CycleResult :=
  if classifyCommand cls = "3" then
    ⟨DispatchAction.scrollDown, true, false, true⟩
  else if classifyCommand cls = "2" then
    ⟨DispatchAction.scrollUp, true, false, true⟩
  else if isExitPhrase transcript then
    ⟨DispatchAction.shutdown, true, false, false⟩
  else
    ⟨DispatchAction.execute transcript, true, false, true⟩

/-- Whether a dispatch action touches the browser page (scrolls act on the
viewport; `execute` forwards to `page.act`; shutdown closes the session
without acting on the page). -/
def performsBrowserAction : DispatchAction → Bool
  | DispatchAction.scrollDown => true
  | DispatchAction.scrollUp => true
  | DispatchAction.shutdown => false
  | DispatchAction.execute _ => true

/-! ## `handleVoiceCommand` (src/index.ts lines 145-165) -/

/-- Outcome of `recordAudio` for one `handleVoiceCommand` cycle: success
(the audio file exists), or a rejection, with or without the file having
been created before the failure. -/
inductive RecordOutcome where
  | ok
  | fail (fileCreated : Bool)
deriving DecidableEq

/-- Observable result of one `handleVoiceCommand` cycle. -/
structure HvcResult where
  /-- whether the temporary audio file still exists afterwards -/
  fileExistsAfter : Bool
  /-- the transcript passed to `executeAction`, when execution was reached -/
  executed : Option String
  /-- whether an exception escaped `handleVoiceCommand` to its caller -/
  threw : Bool
deriving DecidableEq

/-- Model of `handleVoiceCommand` (src/index.ts lines 145-165): record,
transcribe (`transcribeAudio` may throw), execute (`executeAction` catches
internally and never throws), then `fs.unlinkSync`; the `catch` block
deletes the file if it exists, so no path leaks the file and no exception
escapes. -/
def handleVoiceCommand (rec : RecordOutcome) (tr : WhisperOutcome) : HvcResult :=
  match rec with
  | RecordOutcome.fail _ => ⟨false, none, false⟩
  | RecordOutcome.ok =>
    match transcribeAudio tr with
    | Except.error _ => ⟨false, none, false⟩
    | Except.ok t => ⟨false, some t, false⟩

/-! ## The action cache (src/index.ts lines 524-595) -/

/-- A Stagehand `ObserveResult` action descriptor — the replayable action
stored in the cache and passed to `page.act`.  As a JavaScript object it is
always truthy. -/
structure ObserveResult where
  selector : String
  description : String
  method : Option String
  arguments : List String
deriving DecidableEq

/-- State of `cache.json` on disk: the file is absent (or unreadable),
present but not valid JSON (so `JSON.parse` throws), or parses as a JSON
object modelled as a key-descriptor list. -/
inductive CacheFile where
  | absent
  | malformed
  | stored (m : List (String × ObserveResult))
deriving DecidableEq

/-- Object property lookup (`cache[instruction]`) on the parsed mapping:
first matching key (parsed JSON objects carry each key once). -/
def getKey : List (String × ObserveResult) → String → Option ObserveResult
  | [], _ => none
  | p :: rest, k => if p.1 = k then some p.2 else getKey rest k

/-- Object property assignment (`cache[instruction] = actionToCache`):
replace the binding in place, or append a new one. -/
def setKey : List (String × ObserveResult) → String → ObserveResult →
    List (String × ObserveResult)
  | [], i, a => [(i, a)]
  | p :: rest, i, a =>
    if p.1 = i then (i, a) :: rest else p :: setKey rest i a

/-- Model of `simpleCache` (src/index.ts lines 524-547): read `cache.json`
(an unreadable or unparsable file falls back to the empty object via the
inner `catch`), bind `instruction` to `actionToCache`, and write the whole
mapping back. -/
def simpleCache (instruction : String) (actionToCache : ObserveResult)
    (f : CacheFile) : CacheFile :=
  let cache : List (String × ObserveResult) :=
    match f with
    | CacheFile.stored m => m
    | _ => []
  CacheFile.stored (setKey cache instruction actionToCache)

/-- Model of `readCache` (src/index.ts lines 549-559): `null` (here `none`)
when the file is absent/unreadable or `JSON.parse` throws (the `catch`
branch), and `cache[instruction] || null` otherwise — descriptors are
objects, hence truthy, so only a missing key yields `null`.  The model is a
total function: `readCache` never throws. -/
def readCache (instruction : String) (f : CacheFile) : Option ObserveResult :=
  match f with
  | CacheFile.stored m => getKey m instruction
  | _ => none

/-- Observable result of one `actWithCache` call. -/
structure ActResult where
  /-- the cache file state after the call -/
  file : CacheFile
  /-- how many `page.observe` calls the call made -/
  observeCalls : Nat
  /-- the descriptor passed to `page.act`, when one was -/
  executed : Option ObserveResult
deriving DecidableEq

/-- Model of `actWithCache` (src/index.ts lines 568-595), parameterised by
the engine's observe capability `observe` (what `page.observe(instruction)`
returns).  A cache hit replays the stored descriptor with zero observe
calls; a miss observes once, persists `results[0]` via `simpleCache`, then
executes it.  When `observe` returns no results, `results[0]` is
`undefined`: `cache[instruction] = undefined` followed by `JSON.stringify`
drops the binding, so the file keeps only the prior entries, and
`page.act(undefined)` executes nothing. -/
def actWithCache (observe : String → List ObserveResult) (instruction : String)
    (f : CacheFile) : ActResult :=
  match readCache instruction f with
  | some cachedAction => ⟨f, 0, some cachedAction⟩
  | none =>
    match (observe instruction).head? with
    | some actionToCache =>
      ⟨simpleCache instruction actionToCache f, 1, some actionToCache⟩
    | none =>
      ⟨CacheFile.stored
        (match f with
         | CacheFile.stored m => m
         | _ => []), 1, none⟩

/-! ## Claim-side definitions

`classifyChainSpec` renders claim C7's parsing chain exactly as the claim
states it (bare token first, then fenced/JSON-wrapped token, then a token
embedded as a substring, first match wins, default `'1'`), to be compared
with `parseClassification`, which is translated from the source. -/

/-- Claim C7, strategy 1: the content is a bare enum token. -/
def bareTokenStrategy (c : String) : Option String :=
  if isEnumToken (trimS c) then some (trimS c) else none

/-- Claim C7, strategy 2: a token wrapped in a markdown fence or in a JSON
object's `code` member. -/
def wrappedTokenStrategy (c : String) : Option String :=
  if isEnumToken (unwrapped c) then some (unwrapped c)
  else jsonCodeField (unwrapped c)

/-- Claim C7, strategy 3: a token embedded as a substring of free text. -/
def freeTextTokenStrategy (c : String) : Option String :=
  firstDigit123 c

/-- Claim C7's chain as stated: the first strategy that extracts a token
determines the label; default NONE (`'1'`) when none matches. -/
def classifyChainSpec (c : String) : String :=
  match bareTokenStrategy c with
  | some t => t
  | none =>
    match wrappedTokenStrategy c with
    | some t => t
    | none =>
      match freeTextTokenStrategy c with
      | some t => t
      | none => "1"

/-- Amended strategy 1: a bare enum token after fence unwrapping and
trimming. -/
def bareStrategyStripped (c : String) : Option String :=
  if isEnumToken (unwrapped c) then some (unwrapped c) else none

/-- Amended strategy 2: content that looks like JSON (begins with a brace
or bracket) resolves within this strategy — to its valid `code` member, or
to the default when the parse fails or the member is absent/invalid. -/
def jsonShapeStrategy (c : String) : Option String :=
  if startsWithBraceOrBracket (unwrapped c) then
    some ((jsonCodeField (unwrapped c)).getD ("1"))
  else none

/-- Amended strategy 3: the substring scan applies only to content that
does not look like JSON. -/
def freeTextShapeStrategy (c : String) : Option String :=
  if startsWithBraceOrBracket (unwrapped c) then none
  else firstDigit123 (unwrapped c)

/-- The amended chain of claim C7: same three strategies in the same
order, but the substring strategy is gated on the content not looking like
JSON, and JSON-shaped content resolves inside strategy 2. -/
def classifyChainAmended (c : String) : String :=
  match bareStrategyStripped c with
  | some t => t
  | none =>
    match jsonShapeStrategy c with
    | some t => t
    | none =>
      match freeTextShapeStrategy c with
      | some t => t
      | none => "1"

/-- Claim C4's failure condition on the classifier interaction: the
credential is missing, the network call failed, or the response content is
unparsable (no strategy of the parsing chain extracts a token from it). -/
def classifierFailedOrUnparsable (b : ClassifierOutcome) : Prop :=
  b = ClassifierOutcome.noKey ∨ b = ClassifierOutcome.netError ∨
    ∃ c, b = ClassifierOutcome.ok c ∧
      isEnumToken (unwrapped c) = false ∧ jsonCodeField (unwrapped c) = none ∧
      firstDigit123 (unwrapped c) = none

/-- Demo action descriptor used by witnesses. -/
def demoAction : ObserveResult :=
  ⟨("xpath=//button[1]"), ("the sign in button"), some ("click"), []⟩

/-- Demo observe capability used by witnesses: every instruction resolves
to the single descriptor `demoAction`. -/
def obsDemo : String → List ObserveResult := fun _ => [demoAction]

/-! ## Helper lemmas -/

/-- Property update then lookup on the cache mapping: the updated key reads
back the new descriptor, every other key is unchanged. -/
theorem getKey_setKey (m : List (String × ObserveResult)) (i k : String)
    (a : ObserveResult) :
    getKey (setKey m i a) k = if k = i then some a else getKey m k := by
  induction m with
  | nil =>
    by_cases h : k = i
    · subst h; simp [setKey, getKey]
    · have hik : ¬ i = k := fun x => h x.symm
      simp [setKey, getKey, h, hik]
  | cons p rest ih =>
    by_cases hp : p.1 = i
    · by_cases h : k = i
      · subst h; simp [setKey, getKey, hp]
      · have hik : ¬ i = k := fun x => h x.symm
        simp [setKey, getKey, hp, h, hik]
    · by_cases h : p.1 = k
      · have hki : ¬ k = i := fun hk => hp (h.trans hk)
        simp [setKey, getKey, hp, h, hki]
      · simp [setKey, getKey, hp, h, ih]

/-! ## Claims -/

/-- C1 counterexample.  The claim states that every transcript containing
"scroll down" (case-insensitively) produces a downward scroll with the
classifier never invoked.  At the concrete transcript "scroll down" with
the classifier credential missing, the code invokes `classifyCommand`
(unconditionally, src/index.ts line 340), gets the default label `'1'`,
performs no scroll, and forwards the transcript to the automation engine
instead. -/
theorem c1_scroll_counterexample :
    includesSub (toLowerS ("scroll down")) ("scroll down") = true ∧
    (dispatchCycle ("scroll down") ClassifierOutcome.noKey).classifierInvoked
      = true ∧
    (dispatchCycle ("scroll down") ClassifierOutcome.noKey).action
      ≠ DispatchAction.scrollDown ∧
    (dispatchCycle ("scroll down") ClassifierOutcome.noKey).action
      = DispatchAction.execute ("scroll down") := by
  decide

/-- C1 amended: for every transcript containing "scroll down"
(case-insensitive), the dispatch cycle always invokes `classifyCommand`,
and performs a downward viewport scroll exactly when the classifier
returns label `'3'` — the keyword substring by itself triggers nothing. -/
theorem c1_scroll_amended (t : String) (cls : ClassifierOutcome)
    (_h : includesSub (toLowerS t) ("scroll down") = true) :
    (dispatchCycle t cls).classifierInvoked = true ∧
    ((dispatchCycle t cls).action = DispatchAction.scrollDown ↔
      classifyCommand cls = "3") := by
  unfold dispatchCycle
  by_cases h3 : classifyCommand cls = "3"
  · simp [h3]
  · by_cases h2 : classifyCommand cls = "2"
    · simp [h3, h2]
    · by_cases he : isExitPhrase t <;> simp [h3, h2, he]

/-- Witness for C1 amended at the transcript "scroll down" with a backend
that answers `'3'`. -/
theorem c1_scroll_amended_witness :
    (dispatchCycle ("scroll down") (ClassifierOutcome.ok ("3"))).classifierInvoked
      = true ∧
    ((dispatchCycle ("scroll down") (ClassifierOutcome.ok ("3"))).action
        = DispatchAction.scrollDown ↔
      classifyCommand (ClassifierOutcome.ok ("3")) = "3") :=
  c1_scroll_amended ("scroll down") (ClassifierOutcome.ok ("3")) (by decide)

/-- C2 counterexample.  The claim states that an exit-phrase transcript
shuts the loop down without invoking the classifier or the automation
engine.  At the concrete transcript "exit": the classifier IS invoked
(src/index.ts line 340 precedes the exit test at line 352), and if the
backend answers `'3'` the cycle scrolls instead of shutting down. -/
theorem c2_exit_counterexample :
    isExitPhrase ("exit") = true ∧
    (dispatchCycle ("exit") ClassifierOutcome.noKey).classifierInvoked = true ∧
    (dispatchCycle ("exit") (ClassifierOutcome.ok ("3"))).action
      = DispatchAction.scrollDown := by
  decide

/-- C2 amended: for every exit-phrase transcript ("exit"/"quit"/"stop",
case-insensitive), `classifyCommand` IS invoked first; the cycle never
forwards the transcript to `executeAction`; and it transitions to shutdown
exactly when the classification is not a scroll label (`'2'`/`'3'`) —
otherwise it scrolls instead. -/
theorem c2_exit_amended (t : String) (cls : ClassifierOutcome)
    (h : isExitPhrase t = true) :
    (dispatchCycle t cls).classifierInvoked = true ∧
    (∀ s, (dispatchCycle t cls).action ≠ DispatchAction.execute s) ∧
    ((dispatchCycle t cls).action = DispatchAction.shutdown ↔
      (classifyCommand cls ≠ "3" ∧ classifyCommand cls ≠ "2")) := by
  unfold dispatchCycle
  by_cases h3 : classifyCommand cls = "3"
  · simp [h3]
  · by_cases h2 : classifyCommand cls = "2"
    · simp [h3, h2]
    · simp [h3, h2, h]

/-- Witness for C2 amended at the transcript "quit" with the classifier
credential missing. -/
theorem c2_exit_amended_witness :
    (dispatchCycle ("quit") ClassifierOutcome.noKey).classifierInvoked = true ∧
    (∀ s, (dispatchCycle ("quit") ClassifierOutcome.noKey).action
        ≠ DispatchAction.execute s) ∧
    ((dispatchCycle ("quit") ClassifierOutcome.noKey).action
        = DispatchAction.shutdown ↔
      (classifyCommand ClassifierOutcome.noKey ≠ "3" ∧
        classifyCommand ClassifierOutcome.noKey ≠ "2")) :=
  c2_exit_amended ("quit") ClassifierOutcome.noKey (by decide)

/-- C3 counterexample.  The claim states that transcripts below a fragment
threshold — in particular the empty transcript — are dispatched as no-ops
with no browser action.  The code has no length filter: with the
classifier unavailable, the empty transcript is forwarded to the
automation engine (`executeAction("")`, a browser action). -/
theorem c3_fragment_counterexample :
    (dispatchCycle ("") ClassifierOutcome.noKey).action
      = DispatchAction.execute ("") ∧
    performsBrowserAction
      (dispatchCycle ("") ClassifierOutcome.noKey).action = true := by
  decide

/-- C3 amended: the dispatch cycle applies no fragment-length filter.
Whenever the classification is the NONE label `'1'`, the empty transcript
is forwarded verbatim to the automation engine like any other non-exit
transcript; no cache write happens on this path and the loop removes the
temp file and returns to ready. -/
theorem c3_fragment_amended (cls : ClassifierOutcome)
    (h : classifyCommand cls = "1") :
    dispatchCycle ("") cls
      = ⟨DispatchAction.execute (""), true, false, true⟩ := by
  unfold dispatchCycle
  rw [h]
  decide

/-- Witness for C3 amended with the classifier credential missing. -/
theorem c3_fragment_amended_witness :
    dispatchCycle ("") ClassifierOutcome.noKey
      = ⟨DispatchAction.execute (""), true, false, true⟩ :=
  c3_fragment_amended ClassifierOutcome.noKey (by decide)

/-- C6 counterexample.  The claim states every dispatch cycle removes the
temporary audio artifact.  On the voice-exit cycle (transcript "exit" with
a non-scroll classification) the code calls `process.exit(0)`
(src/index.ts line 356) before the `fs.unlink` at line 362: the recording
file is left on storage. -/
theorem c6_cleanup_counterexample :
    isExitPhrase ("exit") = true ∧
    (dispatchCycle ("exit") ClassifierOutcome.noKey).action
      = DispatchAction.shutdown ∧
    (dispatchCycle ("exit") ClassifierOutcome.noKey).tempFileRemoved
      = false := by
  decide

/-- C6 amended: `handleVoiceCommand` removes its audio artifact on every
path, success or failure; in the push-to-talk loop every dispatch cycle
that does not shut the process down reaches the cleanup, but a cycle that
triggers the voice exit leaves its recording file on storage. -/
theorem c6_cleanup_amended :
    (∀ (rec : RecordOutcome) (tr : WhisperOutcome),
      (handleVoiceCommand rec tr).fileExistsAfter = false) ∧
    (∀ (t : String) (cls : ClassifierOutcome),
      (dispatchCycle t cls).action ≠ DispatchAction.shutdown →
        (dispatchCycle t cls).tempFileRemoved = true) := by
  constructor
  · intro rec tr
    cases rec with
    | fail fc => rfl
    | ok => cases tr <;> rfl
  · intro t cls h
    unfold dispatchCycle at *
    by_cases h3 : classifyCommand cls = "3"
    · simp [h3]
    · by_cases h2 : classifyCommand cls = "2"
      · simp [h3, h2]
      · by_cases he : isExitPhrase t
        · simp [h3, h2, he] at h
        · simp [h3, h2, he]

/-- Witness for C6 amended on a non-exit cycle. -/
theorem c6_cleanup_amended_witness :
    (dispatchCycle ("hello") ClassifierOutcome.noKey).action
      ≠ DispatchAction.shutdown ∧
    (dispatchCycle ("hello") ClassifierOutcome.noKey).tempFileRemoved = true :=
  ⟨by decide,
    c6_cleanup_amended.2 ("hello") ClassifierOutcome.noKey (by decide)⟩

/-- C4 counterexample.  The claim states that whenever the classifier
backend fails, dispatch proceeds by forwarding the transcript to the
automation engine — for EVERY transcript.  At the concrete transcript
"exit" with the credential missing, `classifyCommand` does default to
`'1'`, but dispatch shuts the loop down instead of forwarding. -/
theorem c4_fallback_counterexample :
    classifyCommand ClassifierOutcome.noKey = "1" ∧
    (dispatchCycle ("exit") ClassifierOutcome.noKey).action
      ≠ DispatchAction.execute ("exit") ∧
    (dispatchCycle ("exit") ClassifierOutcome.noKey).action
      = DispatchAction.shutdown := by
  decide

/-- C4 amended: when the classifier backend call fails (missing
`CEREBRAS_API_KEY`, network error) or the response content is unparsable,
`classifyCommand` returns the default NONE label `'1'` rather than
raising, and dispatch forwards the transcript to the automation engine
unless the transcript is an exit phrase (in which case it shuts down). -/
theorem c4_fallback_amended (t : String) (b : ClassifierOutcome)
    (hb : classifierFailedOrUnparsable b) :
    classifyCommand b = "1" ∧
    (isExitPhrase t = false →
      (dispatchCycle t b).action = DispatchAction.execute t) := by
  have h1 : classifyCommand b = "1" := by
    rcases hb with h | h | ⟨c, rfl, he, hj, hd⟩
    · subst h; rfl
    · subst h; rfl
    · show parseClassification c = "1"
      unfold parseClassification
      by_cases h2 : startsWithBraceOrBracket (unwrapped c) <;>
        simp [he, hj, hd, h2]
  refine ⟨h1, fun hex => ?_⟩
  unfold dispatchCycle
  rw [h1, if_neg (by decide), if_neg (by decide),
    if_neg (by simp [hex] : ¬ isExitPhrase t = true)]

/-- Witness for C4 amended at a non-exit transcript with the credential
missing. -/
theorem c4_fallback_amended_witness :
    classifyCommand ClassifierOutcome.noKey = "1" ∧
    (isExitPhrase ("open the menu") = false →
      (dispatchCycle ("open the menu") ClassifierOutcome.noKey).action
        = DispatchAction.execute ("open the menu")) :=
  c4_fallback_amended ("open the menu") ClassifierOutcome.noKey
    (Or.inl rfl)

/-- C5: cache idempotence of `actWithCache`.  If the first call on an
instruction misses the cache and the engine's observe capability resolves
it (returns at least one descriptor), then the first call observes exactly
once, persists `results[0]`, and executes it; the second call on the same
instruction hits the cache, performs zero observe calls, and executes
exactly the descriptor stored by the first call. -/
theorem c5_actWithCache_idempotent (observe : String → List ObserveResult)
    (i : String) (f : CacheFile)
    (hmiss : readCache i f = none) (hne : observe i ≠ []) :
    (actWithCache observe i f).observeCalls = 1 ∧
    readCache i (actWithCache observe i f).file = (observe i).head? ∧
    (actWithCache observe i f).executed = (observe i).head? ∧
    (actWithCache observe i (actWithCache observe i f).file).observeCalls
      = 0 ∧
    (actWithCache observe i (actWithCache observe i f).file).executed
      = readCache i (actWithCache observe i f).file := by
  obtain ⟨a, rest, hobs⟩ : ∃ a rest, observe i = a :: rest := by
    cases h : observe i with
    | nil => exact absurd h hne
    | cons a rest => exact ⟨a, rest, rfl⟩
  have hread : readCache i (simpleCache i a f) = some a := by
    unfold readCache simpleCache
    simp [getKey_setKey]
  unfold actWithCache
  rw [hmiss, hobs]
  simp [hread]

/-- Witness for C5 at a concrete instruction, an initially absent cache
file, and the demo observe capability. -/
theorem c5_actWithCache_idempotent_witness :
    (actWithCache obsDemo ("click the sign in button") CacheFile.absent).observeCalls
      = 1 ∧
    readCache ("click the sign in button")
        (actWithCache obsDemo ("click the sign in button") CacheFile.absent).file
      = (obsDemo ("click the sign in button")).head? ∧
    (actWithCache obsDemo ("click the sign in button") CacheFile.absent).executed
      = (obsDemo ("click the sign in button")).head? ∧
    (actWithCache obsDemo ("click the sign in button")
        (actWithCache obsDemo ("click the sign in button") CacheFile.absent).file).observeCalls
      = 0 ∧
    (actWithCache obsDemo ("click the sign in button")
        (actWithCache obsDemo ("click the sign in button") CacheFile.absent).file).executed
      = readCache ("click the sign in button")
          (actWithCache obsDemo ("click the sign in button") CacheFile.absent).file :=
  c5_actWithCache_idempotent obsDemo ("click the sign in button")
    CacheFile.absent (by rfl) (by decide)

/-- C7 counterexample.  The claim's chain would let the substring strategy
recover the token from content on which the JSON strategy extracts
nothing.  On the concrete content `\x7b2\x7d` — which begins with a brace,
fails `JSON.parse`, and contains the digit 2 — the code returns the
default `'1'`, while the claimed chain returns `'2'` via the substring
strategy. -/
theorem c7_chain_counterexample :
    parseClassification ("\x7b2\x7d") = "1" ∧
    classifyChainSpec ("\x7b2\x7d") = "2" := by
  decide

/-- C7 amended: the parsing is an ordered first-match-wins chain with
default `'1'`, with two corrections forced by the code: fence stripping is
a normalisation applied before the bare-token check, and the substring
strategy applies only to content that does not look like JSON (does not
begin with a brace or bracket); JSON-looking content resolves inside the
JSON strategy, to the default when the parse fails or yields no valid
`code`. -/
theorem c7_chain_amended (content : String) :
    parseClassification content = classifyChainAmended content := by
  unfold parseClassification classifyChainAmended bareStrategyStripped
    jsonShapeStrategy freeTextShapeStrategy
  by_cases h1 : isEnumToken (unwrapped content)
  · simp [h1]
  · by_cases h2 : startsWithBraceOrBracket (unwrapped content)
    · cases hj : jsonCodeField (unwrapped content) <;> simp [h1, h2, hj]
    · cases hd : firstDigit123 (unwrapped content) <;> simp [h1, h2, hd]

/-- C8 counterexample.  The claim states every batch transcription
provider returns an empty transcript rather than throwing when the
backend call fails.  The Whisper provider `transcribeAudio`
(src/unnamed/part_000 line 96) re-throws the error instead. -/
theorem c8_stt_counterexample :
    transcribeAudio WhisperOutcome.fail = Except.error () ∧
    transcribeAudio WhisperOutcome.fail ≠ Except.ok ("") :=
  ⟨rfl, fun h => Except.noConfusion h⟩

/-- C8 amended: the Cartesia provider `transcribeWithCartesia` returns the
empty transcript on a missing credential or a backend failure, without
throwing; the Whisper provider `transcribeAudio` instead propagates the
failure as an exception, which its caller `handleVoiceCommand` catches —
so the dispatch loop keeps running either way. -/
theorem c8_stt_amended :
    transcribeWithCartesia SttOutcome.noKey = "" ∧
    transcribeWithCartesia SttOutcome.apiError = "" ∧
    transcribeAudio WhisperOutcome.fail = Except.error () ∧
    (∀ rec, (handleVoiceCommand rec WhisperOutcome.fail).threw = false) ∧
    (handleVoiceCommand RecordOutcome.ok WhisperOutcome.fail).fileExistsAfter
      = false := by
  refine ⟨rfl, rfl, rfl, ?_, rfl⟩
  intro rec
  cases rec <;> rfl

/-- C9: the frame property of `simpleCache`.  When the cache file parses
as a JSON object, the persisted mapping afterwards binds the instruction
to the new descriptor and leaves every other key unchanged; when the file
is absent or unparsable, the persisted mapping afterwards contains exactly
the new binding. -/
theorem c9_simpleCache_frame (i : String) (a : ObserveResult) (k : String) :
    (∀ m, readCache k (simpleCache i a (CacheFile.stored m))
      = if k = i then some a else readCache k (CacheFile.stored m)) ∧
    readCache k (simpleCache i a CacheFile.absent)
      = (if k = i then some a else none) ∧
    readCache k (simpleCache i a CacheFile.malformed)
      = (if k = i then some a else none) := by
  refine ⟨fun m => ?_, ?_, ?_⟩
  · simp [readCache, simpleCache, getKey_setKey]
  · by_cases hk : k = i
    · subst hk; simp [readCache, simpleCache, setKey, getKey]
    · have hik : ¬ i = k := fun x => hk x.symm
      simp [readCache, simpleCache, setKey, getKey, hk, hik]
  · by_cases hk : k = i
    · subst hk; simp [readCache, simpleCache, setKey, getKey]
    · have hik : ¬ i = k := fun x => hk x.symm
      simp [readCache, simpleCache, setKey, getKey, hk, hik]

/-- C10: `readCache` is total (a function in the model — the `catch`
swallows every read/parse failure) and returns `none` when the cache file
is absent or unreadable, when `JSON.parse` throws, or when the
instruction has no entry; otherwise it returns the descriptor stored
under the instruction. -/
theorem c10_readCache_total (i : String) :
    readCache i CacheFile.absent = none ∧
    readCache i CacheFile.malformed = none ∧
    (∀ m, getKey m i = none → readCache i (CacheFile.stored m) = none) ∧
    (∀ m a, getKey m i = some a →
      readCache i (CacheFile.stored m) = some a) := by
  refine ⟨rfl, rfl, fun m h => ?_, fun m a h => ?_⟩ <;>
    simpa [readCache] using h

/-- Witness for C10 on a stored mapping holding the instruction. -/
theorem c10_readCache_total_witness :
    readCache ("open the first link")
        (CacheFile.stored [(("open the first link"), demoAction)])
      = some demoAction :=
  (c10_readCache_total ("open the first link")).2.2.2
    [(("open the first link"), demoAction)] demoAction (by decide)
